import Mathlib

/-!
Verification development for the `montage` video compiler (`main.py`).

The definitions below are a shallow embedding of the pure logic of `main.py`:
string-building functions are translated literally, stateful code (the encoder
probe cache) is modelled by explicit state passing, subprocess probes are
modelled by a boolean availability oracle, machine floats are modelled by `ℚ`,
and fallible code returns `Option`.
-/

/-! ## Constants (main.py lines 43-49) -/

/-- Target output width in pixels (`TARGET_WIDTH = 1920`). -/
def TARGET_WIDTH : ℕ := 1920

/-- Target output height in pixels (`TARGET_HEIGHT = 1080`). -/
def TARGET_HEIGHT : ℕ := 1080

/-- Target output frame rate (`TARGET_FPS = 30`). -/
def TARGET_FPS : ℕ := 30

/-- Cross-fade transition length in seconds (`TRANSITION_DURATION = 1`). -/
def TRANSITION_DURATION : ℚ := 1

/-! ## String helpers -/

/-- Decimal digit character: `digitChar n` is the character for digit `n < 10`. -/
def digitChar (n : ℕ) : Char := Char.ofNat (48 + n)

/-- Zero-padded fixed-width decimal rendering: `padDigits k n` is the `k`
most-significant-first decimal digits of `n` (faithful to Python's zero-padded
numeric format fields whenever `n < 10 ^ k`). -/
def padDigits : ℕ → ℕ → List Char
  | 0, _ => []
  | k + 1, n => digitChar (n / 10 ^ k) :: padDigits k (n % 10 ^ k)

/-- Naive substring occurrence test on character lists. -/
def listContainsSub : List Char → List Char → Bool
  | [], pat => pat.isEmpty
  | c :: t, pat => pat.isPrefixOf (c :: t) || listContainsSub t pat

/-- Substring occurrence test on strings. -/
def strContains (s pat : String) : Bool := listContainsSub s.data pat.data

/-- Index of the first occurrence of `pat` in a character list, offset by `i`. -/
def firstOccurAux : List Char → List Char → ℕ → Option ℕ
  | [], pat, i => if pat.isEmpty then some i else none
  | c :: t, pat, i => if pat.isPrefixOf (c :: t) then some i else firstOccurAux t pat (i + 1)

/-- Index of the first occurrence of `pat` in `s`, if any. -/
def firstOccur (s pat : String) : Option ℕ := firstOccurAux s.data pat.data 0

/-- Fixed-point decimal rendering of a rational with `d` decimal places, rounding
half up; models Python's `f"{x:.df}"` (Python rounds the binary float half to
even, which agrees with this at every value appearing in the theorems below). -/
def fmtFixed (d : ℕ) (q : ℚ) : String :=
  let scaled : ℤ := ⌊q * (10 : ℚ) ^ d + 1 / 2⌋
  if d = 0 then toString scaled
  else
    toString (scaled / (10 : ℤ) ^ d) ++ "." ++
      String.mk (padDigits d (scaled % (10 : ℤ) ^ d).toNat)

/-! ## Encoder settings and capability probing (main.py 123-233) -/

/-- Settings bundle returned by `_get_encoder_settings`; the Python dict keys
become fields, the `"presets"` key (present only for libx265) becomes an
`Option`, and the tier-keyed dicts become association lists. -/
structure EncoderSettings where
  quality_flag : String
  quality_values : List (String × String)
  presets : Option (List (String × String))
  extra_args : List String
  pix_fmt : String
deriving DecidableEq

/-- Embedding of `_get_encoder_settings` (main.py 168-184). Total on all encoder
strings: identifiers other than the two VideoToolbox encoders get the libx265
(CPU fallback) bundle. -/
def _get_encoder_settings (encoder : String) : EncoderSettings :=
  if encoder = "hevc_videotoolbox" ∨ encoder = "h264_videotoolbox" then
    { quality_flag := "-q:v"
      quality_values := [("high", "50"), ("balanced", "60"), ("fast", "70")]
      presets := none
      extra_args := ["-allow_sw", "1"]
      pix_fmt := "yuv420p" }
  else
    { quality_flag := "-crf"
      quality_values := [("high", "20"), ("balanced", "22"), ("fast", "24")]
      presets := some [("high", "slow"), ("balanced", "medium"), ("fast", "fast")]
      extra_args := []
      pix_fmt := "yuv420p10le" }

/-- Hardware encoder priority list probed on macOS (main.py 207 and 230). -/
def hw_encoders : List String := ["hevc_videotoolbox", "h264_videotoolbox"]

/-- Result triple of `detect_best_encoder`: chosen encoder identifier, its
settings bundle, and the list of hardware encoders that were tried. -/
abbrev EncoderResult := String × EncoderSettings × List String

/-- Probe loop of `detect_best_encoder` (main.py 210-215). `_test_encoder` (one
trial encode per call) is modelled by the oracle `avail`. Returns the first
encoder that passed (if any), the encoders appended to `tested`, and the number
of trial encodes that were run. -/
def probeEncoders (avail : String → Bool) : List String → Option String × List String × ℕ
  | [] => (none, [], 0)
  | e :: rest =>
    if avail e then (some e, [e], 1)
    else
      let r := probeEncoders avail rest
      (r.1, e :: r.2.1, r.2.2 + 1)

/-- Embedding of `detect_best_encoder` (main.py 187-220). The module-global
`_encoder_cache` becomes an explicit association list threaded through the
call; the returned `ℕ` counts the trial encodes run by this call. -/
def detect_best_encoder (avail : String → Bool) (cache : List (String × EncoderResult))
    (codec : String) : EncoderResult × List (String × EncoderResult) × ℕ :=
  let cache_key := "darwin_" ++ codec
  match cache.lookup cache_key with
  | some r => (r, cache, 0)
  | none =>
    let p := probeEncoders avail hw_encoders
    let result : EncoderResult :=
      match p.1 with
      | some e => (e, _get_encoder_settings e, p.2.1)
      | none => ("libx265", _get_encoder_settings "libx265", p.2.1)
    (result, (cache_key, result) :: cache, p.2.2)

/-- Probe loop of `_test_gpu_availability` (main.py 230-233), again with an
explicit trial-encode count. -/
def gpuProbeLoop (avail : String → Bool) :
    List String → (Bool × Option String × Option EncoderSettings) × ℕ
  | [] => ((false, none, none), 0)
  | e :: rest =>
    if avail e then ((true, some e, some (_get_encoder_settings e)), 1)
    else
      let r := gpuProbeLoop avail rest
      (r.1, r.2 + 1)

/-- Embedding of `_test_gpu_availability` (main.py 223-233): probes the hardware
encoder list in priority order and never consults or updates `_encoder_cache`.
The `ℕ` component counts the trial encodes run by the call. -/
def _test_gpu_availability (avail : String → Bool) :
    (Bool × Option String × Option EncoderSettings) × ℕ :=
  gpuProbeLoop avail hw_encoders

/-! ## Formatting utilities (main.py 236-298) -/

/-- Unit loop of `format_size` (main.py 241-245): divide by 1024 while walking
the unit list, falling through to `"TB"`. Returns the numeric value that will
be printed together with the chosen unit. -/
def sizeLoop : ℚ → List String → ℚ × String
  | size, [] => (size, "TB")
  | size, u :: rest => if size < 1024 then (size, u) else sizeLoop (size / 1024) rest

/-- Value/unit pair chosen by `format_size` for a byte count. -/
def sizeValueUnit (b : ℚ) : ℚ × String := sizeLoop b ["B", "KB", "MB", "GB"]

/-- Embedding of `format_size` (main.py 236-245): `None` maps to `"Unknown"`;
otherwise the unit-loop value is rendered with one decimal place. Totality of
this function models "never raises". -/
def format_size (size_bytes : Option ℚ) : String :=
  match size_bytes with
  | none => "Unknown"
  | some b =>
    let vu := sizeValueUnit b
    fmtFixed 1 vu.1 ++ " " ++ vu.2

/-- Embedding of `format_duration` (main.py 248-256): `None` maps to
`"Unknown"`; durations under a minute use one decimal place, longer ones whole
minutes plus seconds rounded to an integer. -/
def format_duration (seconds : Option ℚ) : String :=
  match seconds with
  | none => "Unknown"
  | some s =>
    if s < 60 then fmtFixed 1 s ++ "s"
    else
      let minutes : ℤ := ⌊s / 60⌋
      let secs : ℚ := s - 60 * minutes
      toString minutes ++ "m " ++ fmtFixed 0 secs ++ "s"

/-! ## Output filename (main.py 259-287) -/

/-- Calendar date as used by `generate_output_filename`; the Python function
reads only the date components of its `datetime` arguments (`strftime
"%Y.%m.%d"` and the `.date()` equality), so time-of-day fields are dropped. -/
structure PyDate where
  year : ℕ
  month : ℕ
  day : ℕ
deriving DecidableEq

/-- Models `datetime.strftime("%Y.%m.%d")`: zero-padded 4-digit year and
2-digit month/day, faithful for years 1 to 9999. -/
def strftimeYMD (d : PyDate) : String :=
  String.mk (padDigits 4 d.year) ++ "." ++ String.mk (padDigits 2 d.month) ++ "." ++
    String.mk (padDigits 2 d.day)

/-- Python `p.replace(" ", ".")` on a person name. -/
def replaceSpaceDot (p : String) : String :=
  String.mk (p.data.map fun c => if c = ' ' then '.' else c)

/-- People component of `generate_output_filename` (main.py 282-285): dot-joined
names with spaces replaced by dots, or `"All"` when the selection is `None` or
empty (Python truthiness of `if people:`). -/
def peoplePart (people : Option (List String)) : String :=
  match people with
  | some (p :: ps) => String.intercalate "." ((p :: ps).map replaceSpaceDot)
  | _ => "All"

/-- Date component of `generate_output_filename` (main.py 272-279): the start
date alone when start and end fall on the same calendar date, otherwise the
`.to.` range form. -/
def datePart (start_date end_date : PyDate) : String :=
  if start_date = end_date then strftimeYMD start_date
  else strftimeYMD start_date ++ ".to." ++ strftimeYMD end_date

/-- Embedding of `generate_output_filename` (main.py 259-287). -/
def generate_output_filename (start_date end_date : PyDate)
    (people : Option (List String)) : String :=
  datePart start_date end_date ++ "." ++ peoplePart people ++ ".mp4"

/-- Sortable numeric key of a calendar date; for valid dates, `dateKey` order is
chronological order. -/
def dateKey (d : PyDate) : ℕ := d.year * 10000 + d.month * 100 + d.day

/-- Calendar-date validity: the ranges produced by the tool's date prompts. -/
def validDate (d : PyDate) : Prop :=
  1 ≤ d.year ∧ d.year ≤ 9999 ∧ 1 ≤ d.month ∧ d.month ≤ 12 ∧ 1 ≤ d.day ∧ d.day ≤ 31

instance (d : PyDate) : Decidable (validDate d) := by
  unfold validDate
  infer_instance

/-! ## Video filtering (main.py 347-355, 385-395, 522-542) -/

/-- Exif metadata record: the only field read is `duration`. -/
structure ExifInfo where
  duration : Option ℚ
deriving DecidableEq

/-- Minimal model of the osxphotos video records: the fields read by
`get_unique_persons`, `filter_by_people` and `filter_by_duration`. -/
structure Video where
  persons : List String
  exif_info : Option ExifInfo
deriving DecidableEq

/-- Python expression `v.exif_info.duration if v.exif_info else None`
(main.py 531). -/
def Video.durationOf (v : Video) : Option ℚ :=
  match v.exif_info with
  | some e => e.duration
  | none => none

/-- Embedding of `filter_by_people` (main.py 385-395): `None` means no filter;
otherwise keep the videos having at least one selected person. -/
def filter_by_people (videos : List Video) (selected_people : Option (List String)) :
    List Video :=
  match selected_people with
  | none => videos
  | some sel => videos.filter fun v => sel.any fun person => v.persons.contains person

/-- Embedding of `get_unique_persons` (main.py 347-355): collect the person
names that are non-empty and do not start with `"_UNKNOWN"`, deduplicate
(Python builds a set) and sort. -/
def get_unique_persons (videos : List Video) : List String :=
  let persons := (videos.flatMap fun v => v.persons).filter
    fun person => person != "" && !(person.startsWith "_UNKNOWN")
  persons.dedup.mergeSort fun a b => decide (a ≤ b)

/-- Embedding of `filter_by_duration` (main.py 522-542): with both bounds
`None` the input is returned as is; otherwise a video is kept when its duration
is non-null, at least the minimum and at most the maximum. -/
def filter_by_duration (videos : List Video) (min_dur max_dur : Option ℚ) :
    List Video :=
  match min_dur, max_dur with
  | none, none => videos
  | _, _ =>
    videos.filter fun v =>
      match v.durationOf with
      | none => false
      | some duration =>
        if min_dur.any fun m => decide (duration < m) then false
        else if max_dur.any fun M => decide (M < duration) then false
        else true

/-! ## Filter-graph composer (main.py 1032-1210) -/

/-- Rotation fragment computed identically at the top of `build_portrait_filter`
(main.py 1039-1046) and `build_landscape_filter` (main.py 1064-1071). -/
def rotate_part (rotation : ℕ) : String :=
  if rotation = 90 then "transpose=1,"
  else if rotation = 180 then "transpose=1,transpose=1,"
  else if rotation = 270 then "transpose=2,"
  else ""

/-- Portion of the portrait fragment following the rotation transform
(main.py 1048-1053): split, scale/crop/blur pillarbox, centered overlay, then
SAR/FPS/timebase normalization, tagged `[v«idx»]`. -/
def portraitBody (input_idx : ℕ) : String :=
  "split[" ++ toString input_idx ++ "orig][" ++ toString input_idx ++ "copy];" ++
  "[" ++ toString input_idx ++ "copy]scale=" ++ toString TARGET_WIDTH ++ ":" ++
  toString TARGET_HEIGHT ++ ":force_original_aspect_ratio=increase," ++
  "crop=" ++ toString TARGET_WIDTH ++ ":" ++ toString TARGET_HEIGHT ++
  ",gblur=sigma=50[" ++ toString input_idx ++ "blur];" ++
  "[" ++ toString input_idx ++ "blur][" ++ toString input_idx ++
  "orig]overlay=(W-w)/2:(H-h)/2," ++
  "setsar=1,fps=" ++ toString TARGET_FPS ++ ",settb=AVTB[v" ++ toString input_idx ++ "]"

/-- Embedding of `build_portrait_filter` (main.py 1032-1054). -/
def build_portrait_filter (input_idx : ℕ) (rotation : ℕ) : String :=
  "[" ++ toString input_idx ++ ":v]" ++ rotate_part rotation ++ portraitBody input_idx

/-- Portion of the landscape fragment following the rotation transform
(main.py 1073-1077): scale to fit, pad with black, then SAR/FPS/timebase
normalization, tagged `[v«idx»]`. -/
def landscapeBody (input_idx : ℕ) : String :=
  "scale=" ++ toString TARGET_WIDTH ++ ":" ++ toString TARGET_HEIGHT ++
  ":force_original_aspect_ratio=decrease," ++
  "pad=" ++ toString TARGET_WIDTH ++ ":" ++ toString TARGET_HEIGHT ++
  ":(ow-iw)/2:(oh-ih)/2:black," ++
  "setsar=1,fps=" ++ toString TARGET_FPS ++ ",settb=AVTB[v" ++ toString input_idx ++ "]"

/-- Embedding of `build_landscape_filter` (main.py 1057-1077). -/
def build_landscape_filter (input_idx : ℕ) (rotation : ℕ) : String :=
  "[" ++ toString input_idx ++ ":v]" ++ rotate_part rotation ++ landscapeBody input_idx

/-- Per-input audio-normalization fragment (main.py 1168-1170). -/
def audioFilter (i : ℕ) : String :=
  "[" ++ toString i ++ ":a]aresample=48000,aformat=sample_fmts=fltp:channel_layouts=stereo[a" ++
    toString i ++ "]"

/-- One playlist entry as read by `compile_movie` (main.py 1158-1165): the
fields used are `duration`, `is_portrait`, `rotation` and `path`. -/
structure PlaylistVideo where
  duration : ℚ
  is_portrait : Bool
  rotation : ℕ
  path : String
deriving DecidableEq

/-- One step of the cross-fade chain (main.py 1203-1208): the video `xfade`
part, the audio `acrossfade` part, and the start offset the code interpolates
into the video part. -/
structure XfadeOp where
  vPart : String
  aPart : String
  offset : ℚ
deriving DecidableEq

/-- Cross-fade chain loop of `compile_movie` (main.py 1179-1208). `n` is the
playlist length, `i` the transition index, and the list argument the remaining
durations (`videos[i]["duration"]` onward); the loop stops after `n - 1`
transitions, i.e. when a single duration remains. The running
`cumulative_duration` starts at 0 and is reset to each transition's offset. -/
def xfadeChainAux (n : ℕ) (cumulative_duration : ℚ) (i : ℕ) : List ℚ → List XfadeOp
  | [] => []
  | [_] => []
  | d :: e :: rest =>
    let v_in1 := if i = 0 then "[v" ++ toString i ++ "]" else "[vt" ++ toString (i - 1) ++ "]"
    let a_in1 := if i = 0 then "[a" ++ toString i ++ "]" else "[at" ++ toString (i - 1) ++ "]"
    let v_in2 := "[v" ++ toString (i + 1) ++ "]"
    let a_in2 := "[a" ++ toString (i + 1) ++ "]"
    let offset := cumulative_duration + d - TRANSITION_DURATION
    let v_out := if i = n - 2 then "[vout]" else "[vt" ++ toString i ++ "]"
    let a_out := if i = n - 2 then "[aout]" else "[at" ++ toString i ++ "]"
    { vPart := v_in1 ++ v_in2 ++ "xfade=transition=fade:duration=" ++
        toString TRANSITION_DURATION ++ ":offset=" ++ fmtFixed 3 offset ++ v_out
      aPart := a_in1 ++ a_in2 ++ "acrossfade=d=" ++ toString TRANSITION_DURATION ++
        ":c1=tri:c2=tri" ++ a_out
      offset := offset } :: xfadeChainAux n offset (i + 1) (e :: rest)

/-- Cross-fade chain of a playlist: one `XfadeOp` per transition. -/
def xfadeChain (videos : List PlaylistVideo) : List XfadeOp :=
  xfadeChainAux videos.length 0 0 (videos.map PlaylistVideo.duration)

/-- Per-input normalization fragments (main.py 1158-1170) in input order: the
portrait or landscape video fragment, then the audio fragment, per input. -/
def normalizeParts (videos : List PlaylistVideo) : List String :=
  videos.enum.flatMap fun iv =>
    [(if iv.2.is_portrait then build_portrait_filter iv.1 iv.2.rotation
      else build_landscape_filter iv.1 iv.2.rotation),
     audioFilter iv.1]

/-- Filter-graph parts of `compile_movie` (main.py 1154-1210): normalization
fragments, then either the single-video pass-through or the cross-fade chain. -/
def compileFilterParts (videos : List PlaylistVideo) : List String :=
  normalizeParts videos ++
    (if videos.length = 1 then ["[v0]null[vout]", "[a0]anull[aout]"]
     else (xfadeChain videos).flatMap fun op => [op.vPart, op.aPart])

/-- Playlist document as read by `compile_movie` (main.py 1129-1150): the video
entries plus the filter metadata used to derive the output filename. -/
structure Playlist where
  videos : List PlaylistVideo
  start_date : PyDate
  end_date : PyDate
  people : Option (List String)

/-- User's encoding selection (main.py 63-70). -/
structure EncodingSelection where
  encoder_type : String
  quality_tier : String
  encoder_name : String
  encoder_settings : EncoderSettings

/-- Embedding of `compile_movie` (main.py 1080-1321) on the
`encoding is not None` path (the auto-detect path differs only in where the
settings come from). The result is the ffmpeg argument list the function would
spawn; `none` models "the playlist is rejected: no encoding subprocess is
spawned and the Python function returns None". -/
def compile_movie (playlist : Playlist) (encoding : EncodingSelection) :
    Option (List String) :=
  if playlist.videos = [] then none
  else
    let encoder := encoding.encoder_name
    let enc_settings := encoding.encoder_settings
    let quality_tier := encoding.quality_tier
    let output_filename :=
      generate_output_filename playlist.start_date playlist.end_date playlist.people
    let inputs := playlist.videos.flatMap fun v => ["-i", v.path]
    let filter_complex := String.intercalate ";" (compileFilterParts playlist.videos)
    some (["ffmpeg", "-y"] ++ inputs ++
      ["-filter_complex", filter_complex, "-map", "[vout]", "-map", "[aout]",
       "-c:v", encoder, "-pix_fmt", enc_settings.pix_fmt,
       enc_settings.quality_flag, (enc_settings.quality_values.lookup quality_tier).getD ""] ++
      enc_settings.extra_args ++
      (match enc_settings.presets with
       | some ps =>
         if encoder = "libx265" then
           ["-preset", (ps.lookup quality_tier).getD ""] ++
             (if quality_tier = "high" then
               ["-tune", "fastdecode", "-x265-params", "aq-mode=3"]
              else [])
         else []
       | none => []) ++
      ["-tag:v", "hvc1", "-c:a", "aac", "-b:a", "192k", "-movflags", "+faststart",
       output_filename])

/-- Concrete three-video playlist whose middle clip is shorter than the
transition duration. -/
def shortMiddlePlaylist : List PlaylistVideo :=
  [⟨5, false, 0, "a.mov"⟩, ⟨1 / 2, false, 0, "b.mov"⟩, ⟨5, false, 0, "c.mov"⟩]

/-! ## Helper lemmas and claim theorems -/

/-- C10: for a null input, `format_size` and `format_duration` each return the
string "Unknown"; both embedded functions are total, modelling that the Python
functions never raise on `None`. -/
theorem C10_none_unknown :
    format_size none = "Unknown" ∧ format_duration none = "Unknown" :=
  ⟨rfl, rfl⟩

/-- C8: a playlist whose video list is empty makes `compile_movie` return
`none`: no ffmpeg argument list is ever assembled, so no encoding subprocess is
spawned. -/
theorem C8_empty_playlist_rejected (playlist : Playlist) (encoding : EncodingSelection)
    (h : playlist.videos = []) : compile_movie playlist encoding = none := by
  simp [compile_movie, h]

/-- Witness for C8 at a concrete empty playlist. -/
theorem C8_empty_playlist_rejected_witness :
    compile_movie ⟨[], ⟨2020, 1, 1⟩, ⟨2020, 1, 2⟩, none⟩
      ⟨"cpu", "balanced", "libx265", _get_encoder_settings "libx265"⟩ = none :=
  C8_empty_playlist_rejected _ _ rfl

/-- C4: the settings lookup is total (never raises), its quality-values table
supplies a value for all three tiers on every encoder identifier, and any
identifier other than the two hardware encoders resolves to the libx265
(software) settings bundle. -/
theorem C4_encoder_settings_total (encoder : String) :
    ((_get_encoder_settings encoder).quality_values.lookup "high").isSome = true ∧
    ((_get_encoder_settings encoder).quality_values.lookup "balanced").isSome = true ∧
    ((_get_encoder_settings encoder).quality_values.lookup "fast").isSome = true ∧
    (encoder ≠ "hevc_videotoolbox" → encoder ≠ "h264_videotoolbox" →
      _get_encoder_settings encoder = _get_encoder_settings "libx265") := by
  refine ⟨?_, ?_, ?_, ?_⟩
  · unfold _get_encoder_settings; split_ifs <;> decide
  · unfold _get_encoder_settings; split_ifs <;> decide
  · unfold _get_encoder_settings; split_ifs <;> decide
  · intro h1 h2
    unfold _get_encoder_settings
    rw [if_neg (not_or.mpr ⟨h1, h2⟩), if_neg (by decide)]

/-- Witness for C4 at the unknown encoder identifier "mystery". -/
theorem C4_encoder_settings_total_witness :
    ((_get_encoder_settings "mystery").quality_values.lookup "high").isSome = true ∧
    ((_get_encoder_settings "mystery").quality_values.lookup "balanced").isSome = true ∧
    ((_get_encoder_settings "mystery").quality_values.lookup "fast").isSome = true ∧
    _get_encoder_settings "mystery" = _get_encoder_settings "libx265" :=
  ⟨(C4_encoder_settings_total "mystery").1,
   (C4_encoder_settings_total "mystery").2.1,
   (C4_encoder_settings_total "mystery").2.2.1,
   (C4_encoder_settings_total "mystery").2.2.2 (by decide) (by decide)⟩

/-- Counterexample to C5 as stated: `_test_gpu_availability` never consults the
cache, so a repeated call still re-runs trial encodes: with no hardware encoder
available every call runs two trial encodes, not zero. -/
theorem C5_gpu_probe_not_cached_counterexample :
    (_test_gpu_availability fun _ => false).2 = 2 := by
  rfl

/-- C5 amended: `detect_best_encoder` results are cached per
(platform, codec-family) key: calling again with the cache returned by a first
call yields the same result, the same cache, and zero further trial encodes.
`_test_gpu_availability`, by contrast, performs no caching and runs at least
one trial encode on every call. -/
theorem C5_detect_encoder_cached (avail : String → Bool)
    (cache : List (String × EncoderResult)) (codec : String) :
    detect_best_encoder avail (detect_best_encoder avail cache codec).2.1 codec =
      ((detect_best_encoder avail cache codec).1,
       (detect_best_encoder avail cache codec).2.1, 0) ∧
    1 ≤ (_test_gpu_availability avail).2 := by
  constructor
  · unfold detect_best_encoder
    cases h : List.lookup ("darwin_" ++ codec) cache with
    | some r => simp [h]
    | none => simp [h, List.lookup]
  · unfold _test_gpu_availability hw_encoders
    by_cases h1 : avail "hevc_videotoolbox" <;>
      by_cases h2 : avail "h264_videotoolbox" <;>
        simp [h1, h2, gpuProbeLoop]

/-- C2: the rotation fragment is empty for 0, a single quarter-turn transpose
for 90 and 270 in opposite directions (`transpose=1` vs `transpose=2`), and two
consecutive same-direction transposes for 180; in both fragment builders the
rotation transform sits between the input label and the split/scale (resp.
scale/pad) body, and concretely (scenario B) the portrait fragment at index 0
with rotation 90 contains both `gblur` and `transpose=1` with the rotation
occurring before the split, while rotation 0 emits no transpose at all. -/
theorem C2_rotation_fragments (idx rotation : ℕ) :
    rotate_part 0 = "" ∧
    rotate_part 90 = "transpose=1," ∧
    rotate_part 270 = "transpose=2," ∧
    rotate_part 180 = "transpose=1," ++ "transpose=1," ∧
    build_portrait_filter idx rotation =
      "[" ++ toString idx ++ ":v]" ++ rotate_part rotation ++ portraitBody idx ∧
    build_landscape_filter idx rotation =
      "[" ++ toString idx ++ ":v]" ++ rotate_part rotation ++ landscapeBody idx ∧
    strContains (build_portrait_filter 0 90) "gblur" = true ∧
    strContains (build_portrait_filter 0 90) "transpose=1" = true ∧
    firstOccur (build_portrait_filter 0 90) "transpose" = some 5 ∧
    firstOccur (build_portrait_filter 0 90) "split" = some 17 ∧
    strContains (build_portrait_filter 0 0) "transpose" = false :=
  ⟨rfl, rfl, rfl, by decide, rfl, rfl, by decide, by decide, by decide, by decide, by decide⟩

/-- Unit loop of `format_size` unfolded to its nested conditionals. -/
theorem sizeValueUnit_eq (b : ℚ) :
    sizeValueUnit b =
      if b < 1024 then (b, "B")
      else if b / 1024 < 1024 then (b / 1024, "KB")
      else if b / 1024 / 1024 < 1024 then (b / 1024 / 1024, "MB")
      else if b / 1024 / 1024 / 1024 < 1024 then (b / 1024 / 1024 / 1024, "GB")
      else (b / 1024 / 1024 / 1024 / 1024, "TB") :=
  rfl

/-- Counterexample to C3 as stated: at `b = 1024 ^ 5` the unit loop falls
through to `"TB"` with numeric value exactly 1024, which does not lie in
`[0, 1024)`. -/
theorem C3_size_range_counterexample :
    sizeValueUnit ((1024 : ℚ) ^ 5) = (1024, "TB") ∧
    ¬ (sizeValueUnit ((1024 : ℚ) ^ 5)).1 < 1024 := by
  have h : sizeValueUnit ((1024 : ℚ) ^ 5) = (1024, "TB") := by
    rw [sizeValueUnit_eq]
    norm_num
  refine ⟨h, ?_⟩
  rw [h]
  norm_num

/-- Concrete rendering fact: 1023 bytes keep unit "B". -/
theorem format_size_1023 : format_size (some 1023) = "1023.0 B" := by
  have h0 : format_size (some 1023) =
      fmtFixed 1 (sizeValueUnit 1023).1 ++ " " ++ (sizeValueUnit 1023).2 := rfl
  have h1 : sizeValueUnit (1023 : ℚ) = (1023, "B") := by
    rw [sizeValueUnit_eq]; norm_num
  have hs : (⌊(1023 : ℚ) * (10 : ℚ) ^ (1 : ℕ) + 1 / 2⌋ : ℤ) = 10230 := by norm_num
  rw [h0, h1]
  simp only [fmtFixed, hs]
  decide

/-- Concrete rendering fact: 1024 bytes become "1.0 KB". -/
theorem format_size_1024 : format_size (some 1024) = "1.0 KB" := by
  have h0 : format_size (some 1024) =
      fmtFixed 1 (sizeValueUnit 1024).1 ++ " " ++ (sizeValueUnit 1024).2 := rfl
  have h1 : sizeValueUnit (1024 : ℚ) = (1, "KB") := by
    rw [sizeValueUnit_eq]; norm_num
  have hs : (⌊(1 : ℚ) * (10 : ℚ) ^ (1 : ℕ) + 1 / 2⌋ : ℤ) = 10 := by norm_num
  rw [h0, h1]
  simp only [fmtFixed, hs]
  decide

/-- C3 amended: for byte counts below `1024 ^ 5` (the capacity of the final
"TB" unit) the printed numeric value lies in `[0, 1024)`, the unit thresholds
cross exactly at powers of 1024, 1023 bytes keep unit "B", and 1024 bytes
render as "1.0 KB". (As stated the claim fails at `b = 1024 ^ 5` and beyond,
where the loop falls through to "TB" with a value of 1024 or more.) -/
theorem C3_format_size_units (b : ℚ) (hb0 : 0 ≤ b) (hb : b < 1024 ^ 5) :
    (0 ≤ (sizeValueUnit b).1 ∧ (sizeValueUnit b).1 < 1024) ∧
    (b < 1024 → sizeValueUnit b = (b, "B")) ∧
    (1024 ≤ b → b < 1024 ^ 2 → sizeValueUnit b = (b / 1024, "KB")) ∧
    (1024 ^ 2 ≤ b → b < 1024 ^ 3 → sizeValueUnit b = (b / 1024 ^ 2, "MB")) ∧
    (1024 ^ 3 ≤ b → b < 1024 ^ 4 → sizeValueUnit b = (b / 1024 ^ 3, "GB")) ∧
    (1024 ^ 4 ≤ b → sizeValueUnit b = (b / 1024 ^ 4, "TB")) ∧
    format_size (some 1023) = "1023.0 B" ∧
    format_size (some 1024) = "1.0 KB" := by
  have h1024 : (0 : ℚ) < 1024 := by norm_num
  refine ⟨?_, ?_, ?_, ?_, ?_, ?_, format_size_1023, format_size_1024⟩
  · rw [sizeValueUnit_eq]
    split_ifs with h1 h2 h3 h4
    · exact ⟨hb0, h1⟩
    · exact ⟨by positivity, h2⟩
    · exact ⟨by positivity, h3⟩
    · exact ⟨by positivity, h4⟩
    · refine ⟨by positivity, ?_⟩
      rw [div_div, div_div, div_div, div_lt_iff₀ (by norm_num : (0:ℚ) < 1024 * (1024 * (1024 * 1024)))]
      have h5 : (1024 : ℚ) ^ 5 = 1024 * (1024 * (1024 * (1024 * 1024))) := by norm_num
      linarith
  · intro h
    rw [sizeValueUnit_eq, if_pos h]
  · intro h1 h2
    have hd : b / 1024 < 1024 := by
      rw [div_lt_iff₀ h1024]
      have : (1024 : ℚ) ^ 2 = 1024 * 1024 := by norm_num
      linarith
    rw [sizeValueUnit_eq, if_neg (not_lt.mpr h1), if_pos hd]
  · intro h1 h2
    have k1 : ¬ b < 1024 := not_lt.mpr (le_trans (by norm_num) h1)
    have k2 : ¬ b / 1024 < 1024 := by
      rw [not_lt, le_div_iff₀ h1024]
      have : (1024 : ℚ) ^ 2 = 1024 * 1024 := by norm_num
      linarith
    have k3 : b / 1024 / 1024 < 1024 := by
      rw [div_div, div_lt_iff₀ (by norm_num : (0:ℚ) < 1024 * 1024)]
      have : (1024 : ℚ) ^ 3 = 1024 * (1024 * 1024) := by norm_num
      linarith
    rw [sizeValueUnit_eq, if_neg k1, if_neg k2, if_pos k3, div_div]
    norm_num
  · intro h1 h2
    have k1 : ¬ b < 1024 := not_lt.mpr (le_trans (by norm_num) h1)
    have k2 : ¬ b / 1024 < 1024 := by
      rw [not_lt, le_div_iff₀ h1024]
      have : (1024 : ℚ) ^ 3 = 1024 * 1024 * 1024 := by norm_num
      nlinarith
    have k3 : ¬ b / 1024 / 1024 < 1024 := by
      rw [not_lt, div_div, le_div_iff₀ (by norm_num : (0:ℚ) < 1024 * 1024)]
      have : (1024 : ℚ) ^ 3 = 1024 * (1024 * 1024) := by norm_num
      linarith
    have k4 : b / 1024 / 1024 / 1024 < 1024 := by
      rw [div_div, div_div, div_lt_iff₀ (by norm_num : (0:ℚ) < 1024 * (1024 * 1024))]
      have : (1024 : ℚ) ^ 4 = 1024 * (1024 * (1024 * 1024)) := by norm_num
      linarith
    rw [sizeValueUnit_eq, if_neg k1, if_neg k2, if_neg k3, if_pos k4, div_div, div_div]
    norm_num
  · intro h1
    have k1 : ¬ b < 1024 := not_lt.mpr (le_trans (by norm_num) h1)
    have k2 : ¬ b / 1024 < 1024 := by
      rw [not_lt, le_div_iff₀ h1024]
      have : (1024 : ℚ) ^ 4 = 1024 * 1024 * 1024 * 1024 := by norm_num
      nlinarith
    have k3 : ¬ b / 1024 / 1024 < 1024 := by
      rw [not_lt, div_div, le_div_iff₀ (by norm_num : (0:ℚ) < 1024 * 1024)]
      have : (1024 : ℚ) ^ 4 = 1024 * (1024 * 1024) * 1024 := by norm_num
      nlinarith
    have k4 : ¬ b / 1024 / 1024 / 1024 < 1024 := by
      rw [not_lt, div_div, div_div, le_div_iff₀ (by norm_num : (0:ℚ) < 1024 * (1024 * 1024))]
      have : (1024 : ℚ) ^ 4 = 1024 * (1024 * (1024 * 1024)) := by norm_num
      linarith
    rw [sizeValueUnit_eq, if_neg k1, if_neg k2, if_neg k3, if_neg k4, div_div, div_div, div_div]
    norm_num

/-- Witness for C3 at the concrete byte count 5. -/
theorem C3_format_size_units_witness :
    (0 : ℚ) ≤ 5 ∧ (5 : ℚ) < 1024 ^ 5 ∧
    ((0 ≤ (sizeValueUnit 5).1 ∧ (sizeValueUnit 5).1 < 1024) ∧
     ((5 : ℚ) < 1024 → sizeValueUnit 5 = (5, "B")) ∧
     (1024 ≤ (5 : ℚ) → (5 : ℚ) < 1024 ^ 2 → sizeValueUnit 5 = (5 / 1024, "KB")) ∧
     (1024 ^ 2 ≤ (5 : ℚ) → (5 : ℚ) < 1024 ^ 3 → sizeValueUnit 5 = (5 / 1024 ^ 2, "MB")) ∧
     (1024 ^ 3 ≤ (5 : ℚ) → (5 : ℚ) < 1024 ^ 4 → sizeValueUnit 5 = (5 / 1024 ^ 3, "GB")) ∧
     (1024 ^ 4 ≤ (5 : ℚ) → sizeValueUnit 5 = (5 / 1024 ^ 4, "TB")) ∧
     format_size (some 1023) = "1023.0 B" ∧
     format_size (some 1024) = "1.0 KB") :=
  ⟨by norm_num, by norm_num, C3_format_size_units 5 (by norm_num) (by norm_num)⟩

/-- The cross-fade chain loop runs once per transition: its length is the
number of durations minus one. -/
theorem xfadeChainAux_length (durs : List ℚ) :
    ∀ (n i : ℕ) (c : ℚ), (xfadeChainAux n c i durs).length = durs.length - 1 := by
  induction durs with
  | nil => intro n i c; rfl
  | cons d tail ih =>
    intro n i c
    cases tail with
    | nil => rfl
    | cons e rest =>
      simp only [xfadeChainAux, List.length_cons]
      rw [ih]
      simp

/-- Offsets of the cross-fade chain loop: the first offset is the running
cumulative plus the first duration minus the transition duration, and each
following offset adds the next duration and subtracts the transition
duration. -/
theorem xfadeChainAux_offsets (durs : List ℚ) :
    ∀ (n i : ℕ) (c : ℚ),
      (2 ≤ durs.length →
        ((xfadeChainAux n c i durs).map XfadeOp.offset).getD 0 0 =
          c + durs.getD 0 0 - TRANSITION_DURATION) ∧
      (∀ j, j + 1 < ((xfadeChainAux n c i durs).map XfadeOp.offset).length →
        ((xfadeChainAux n c i durs).map XfadeOp.offset).getD (j + 1) 0 =
          ((xfadeChainAux n c i durs).map XfadeOp.offset).getD j 0 +
            durs.getD (j + 1) 0 - TRANSITION_DURATION) := by
  induction durs with
  | nil =>
    intro n i c
    exact ⟨fun h => by simp at h, fun j hj => by simp [xfadeChainAux] at hj⟩
  | cons d tail ih =>
    intro n i c
    cases tail with
    | nil =>
      refine ⟨fun h => by simp at h, fun j hj => ?_⟩
      simp [xfadeChainAux] at hj
    | cons e rest =>
      have hih := ih n (i + 1) (c + d - TRANSITION_DURATION)
      have hlen : (xfadeChainAux n (c + d - TRANSITION_DURATION) (i + 1) (e :: rest)).length =
          rest.length := by
        rw [xfadeChainAux_length]; simp
      have hlen2 : ((xfadeChainAux n c i (d :: e :: rest)).map XfadeOp.offset).length =
          rest.length + 1 := by
        rw [List.length_map, xfadeChainAux_length]; simp
      constructor
      · intro _
        simp [xfadeChainAux]
      · intro j hj
        rw [hlen2] at hj
        cases j with
        | zero =>
          have h1 := hih.1 (by simp only [List.length_cons]; omega)
          simp only [xfadeChainAux, List.map_cons, List.getD_cons_succ, List.getD_cons_zero]
          rw [h1]
          simp
        | succ k =>
          have hk : k + 1 < ((xfadeChainAux n (c + d - TRANSITION_DURATION) (i + 1)
              (e :: rest)).map XfadeOp.offset).length := by
            rw [List.length_map, hlen]; omega
          have h2 := hih.2 k hk
          simp only [xfadeChainAux, List.map_cons, List.getD_cons_succ]
          rw [h2]
          simp

/-- Counterexample to C1 as stated: in a 3-video playlist whose middle clip
lasts half a second (less than the 1-second transition), the two cross-fade
offsets are 4 and 3.5: they are not strictly increasing. -/
theorem C1_offsets_counterexample :
    shortMiddlePlaylist.length = 3 ∧
    ((xfadeChain shortMiddlePlaylist).map XfadeOp.offset).getD 0 0 = 4 ∧
    ((xfadeChain shortMiddlePlaylist).map XfadeOp.offset).getD 1 0 = 7 / 2 ∧
    ¬ ((xfadeChain shortMiddlePlaylist).map XfadeOp.offset).getD 0 0 <
        ((xfadeChain shortMiddlePlaylist).map XfadeOp.offset).getD 1 0 := by
  have h : (xfadeChain shortMiddlePlaylist).map XfadeOp.offset = [4, 7 / 2] := by
    simp only [shortMiddlePlaylist, xfadeChain, xfadeChainAux, TRANSITION_DURATION,
      List.map_cons, List.map_nil, List.length_cons, List.length_nil]
    norm_num
  refine ⟨rfl, ?_, ?_, ?_⟩ <;> rw [h] <;> norm_num

/-- C1 amended: for every playlist of `N > 1` videos the cross-fade chain has
exactly `N - 1` steps, each contributing one video `xfade` part and one audio
`acrossfade` part to the filter graph; the offsets obey
`offset_0 = duration_0 - transition` and
`offset_(j+1) = offset_j + duration_(j+1) - transition`; and the offsets are
strictly increasing provided every intermediate video (neither first nor last)
lasts longer than the transition duration. (As stated, without that proviso,
the claim fails: see the counterexample.) -/
theorem C1_crossfade_chain (videos : List PlaylistVideo) (h2 : 2 ≤ videos.length) :
    (xfadeChain videos).length = videos.length - 1 ∧
    compileFilterParts videos =
      normalizeParts videos ++ (xfadeChain videos).flatMap (fun op => [op.vPart, op.aPart]) ∧
    ((xfadeChain videos).map XfadeOp.offset).getD 0 0 =
      (videos.map PlaylistVideo.duration).getD 0 0 - TRANSITION_DURATION ∧
    (∀ j, j + 1 < (xfadeChain videos).length →
      ((xfadeChain videos).map XfadeOp.offset).getD (j + 1) 0 =
        ((xfadeChain videos).map XfadeOp.offset).getD j 0 +
          (videos.map PlaylistVideo.duration).getD (j + 1) 0 - TRANSITION_DURATION) ∧
    ((∀ j, 1 ≤ j → j + 1 < videos.length →
        TRANSITION_DURATION < (videos.map PlaylistVideo.duration).getD j 0) →
      ∀ j, j + 1 < (xfadeChain videos).length →
        ((xfadeChain videos).map XfadeOp.offset).getD j 0 <
          ((xfadeChain videos).map XfadeOp.offset).getD (j + 1) 0) := by
  have hlen : (xfadeChain videos).length = videos.length - 1 := by
    rw [xfadeChain, xfadeChainAux_length, List.length_map]
  have hoff := xfadeChainAux_offsets (videos.map PlaylistVideo.duration)
    videos.length 0 0
  refine ⟨hlen, ?_, ?_, ?_, ?_⟩
  · rw [compileFilterParts, if_neg (by omega)]
  · have := hoff.1 (by rw [List.length_map]; omega)
    rw [xfadeChain]
    rw [this]
    ring
  · intro j hj
    exact hoff.2 j (by rw [List.length_map, xfadeChainAux_length, List.length_map]; omega)
  · intro hdur j hj
    have hrec := hoff.2 j (by rw [List.length_map, xfadeChainAux_length, List.length_map]; omega)
    have hd : TRANSITION_DURATION < (videos.map PlaylistVideo.duration).getD (j + 1) 0 :=
      hdur (j + 1) (by omega) (by omega)
    unfold xfadeChain
    rw [hrec]
    linarith

/-- Witness for C1 at a concrete 3-video playlist with 30-second clips. -/
theorem C1_crossfade_chain_witness :
    2 ≤ ([⟨30, false, 0, "a.mov"⟩, ⟨30, true, 90, "b.mov"⟩,
          ⟨30, false, 0, "c.mov"⟩] : List PlaylistVideo).length ∧
    (xfadeChain [⟨30, false, 0, "a.mov"⟩, ⟨30, true, 90, "b.mov"⟩,
        ⟨30, false, 0, "c.mov"⟩]).length =
      ([⟨30, false, 0, "a.mov"⟩, ⟨30, true, 90, "b.mov"⟩,
        ⟨30, false, 0, "c.mov"⟩] : List PlaylistVideo).length - 1 := by
  refine ⟨by decide, ?_⟩
  exact (C1_crossfade_chain _ (by decide)).1

/-- The retention predicate of `filter_by_duration`, characterized: a video
passes iff its duration is non-null and within whichever bounds are set. -/
theorem filter_by_duration_pred (mi ma : Option ℚ) (w : Video) :
    ((match w.durationOf with
      | none => false
      | some duration =>
        if mi.any fun m => decide (duration < m) then false
        else if ma.any fun M => decide (M < duration) then false
        else true) = true) ↔
    ∃ d, w.durationOf = some d ∧
      (∀ m, mi = some m → m ≤ d) ∧ (∀ M, ma = some M → d ≤ M) := by
  cases hvd : w.durationOf with
  | none => simp
  | some d =>
    cases mi <;> cases ma <;> simp [Option.any, not_lt]

/-- C7: with both bounds null the input list is returned unchanged; the result
is always an in-order sublist of the input; and once at least one bound is set,
a video is retained exactly when its duration is non-null and lies inclusively
within whichever bounds are non-null — in particular a video lacking a
duration is always excluded. -/
theorem C7_filter_by_duration (videos : List Video) (min_dur max_dur : Option ℚ)
    (v : Video) :
    filter_by_duration videos none none = videos ∧
    (filter_by_duration videos min_dur max_dur).Sublist videos ∧
    (min_dur.isSome = true ∨ max_dur.isSome = true →
      (v ∈ filter_by_duration videos min_dur max_dur ↔
        v ∈ videos ∧ ∃ d, v.durationOf = some d ∧
          (∀ m, min_dur = some m → m ≤ d) ∧ (∀ M, max_dur = some M → d ≤ M)) ∧
      (v.durationOf = none → v ∉ filter_by_duration videos min_dur max_dur)) := by
  have hsub : (filter_by_duration videos min_dur max_dur).Sublist videos := by
    rcases min_dur with _ | m
    · rcases max_dur with _ | M
      · exact List.Sublist.refl _
      · exact List.filter_sublist _
    · exact List.filter_sublist _
  refine ⟨rfl, hsub, ?_⟩
  intro hsome
  have hfilter : ∀ (w : Video),
      w ∈ filter_by_duration videos min_dur max_dur ↔
        w ∈ videos ∧ ∃ d, w.durationOf = some d ∧
          (∀ m, min_dur = some m → m ≤ d) ∧ (∀ M, max_dur = some M → d ≤ M) := by
    intro w
    have hform : filter_by_duration videos min_dur max_dur =
        videos.filter fun u =>
          match u.durationOf with
          | none => false
          | some duration =>
            if min_dur.any fun m => decide (duration < m) then false
            else if max_dur.any fun M => decide (M < duration) then false
            else true := by
      rcases min_dur with _ | m
      · rcases max_dur with _ | M
        · simp at hsome
        · rfl
      · rfl
    rw [hform, List.mem_filter, filter_by_duration_pred]
  refine ⟨hfilter v, ?_⟩
  intro hnone hv
  obtain ⟨-, d, hd, -⟩ := (hfilter v).mp hv
  rw [hnone] at hd
  exact Option.noConfusion hd

/-- Witness for C7 at a concrete video list and bounds. -/
theorem C7_filter_by_duration_witness :
    filter_by_duration [⟨["Alice"], some ⟨some 10⟩⟩, ⟨["Bob"], none⟩] none none =
      [⟨["Alice"], some ⟨some 10⟩⟩, ⟨["Bob"], none⟩] ∧
    (filter_by_duration [⟨["Alice"], some ⟨some 10⟩⟩, ⟨["Bob"], none⟩]
        (some 5) (some 20)).Sublist [⟨["Alice"], some ⟨some 10⟩⟩, ⟨["Bob"], none⟩] ∧
    ((⟨["Bob"], none⟩ : Video) ∈ filter_by_duration
        [⟨["Alice"], some ⟨some 10⟩⟩, ⟨["Bob"], none⟩] (some 5) (some 20) ↔
      (⟨["Bob"], none⟩ : Video) ∈ [⟨["Alice"], some ⟨some 10⟩⟩, ⟨["Bob"], none⟩] ∧
        ∃ d, (⟨["Bob"], none⟩ : Video).durationOf = some d ∧
          (∀ m, (some (5:ℚ)) = some m → m ≤ d) ∧ (∀ M, (some (20:ℚ)) = some M → d ≤ M)) ∧
    ((⟨["Bob"], none⟩ : Video).durationOf = none →
      (⟨["Bob"], none⟩ : Video) ∉ filter_by_duration
        [⟨["Alice"], some ⟨some 10⟩⟩, ⟨["Bob"], none⟩] (some 5) (some 20)) := by
  have h := C7_filter_by_duration [⟨["Alice"], some ⟨some 10⟩⟩, ⟨["Bob"], none⟩]
    (some 5) (some 20) ⟨["Bob"], none⟩
  have h2 := h.2.2 (Or.inl rfl)
  exact ⟨(C7_filter_by_duration [⟨["Alice"], some ⟨some 10⟩⟩, ⟨["Bob"], none⟩]
    none none ⟨["Bob"], none⟩).1, h.2.1, h2.1, h2.2⟩

/-- C6: a `None` selection returns the input unchanged; an empty-list selection
returns the empty list; a selection keeps exactly the videos containing at
least one selected name, preserving the original order (sublist); every name
offered by `get_unique_persons` is non-empty and no `_UNKNOWN` sentinel; and
for selections drawn from such names (the only ones the tool offers) a
sentinel name never produces a match. -/
theorem C6_filter_by_people (videos : List Video) (sel : List String) (v : Video) :
    filter_by_people videos none = videos ∧
    filter_by_people videos (some []) = [] ∧
    (filter_by_people videos (some sel)).Sublist videos ∧
    (v ∈ filter_by_people videos (some sel) ↔
      v ∈ videos ∧ ∃ p ∈ sel, p ∈ v.persons) ∧
    (∀ p ∈ get_unique_persons videos, p ≠ "" ∧ p.startsWith "_UNKNOWN" = false) ∧
    ((∀ p ∈ sel, p.startsWith "_UNKNOWN" = false) →
      (v ∈ filter_by_people videos (some sel) ↔
        v ∈ videos ∧ ∃ p ∈ v.persons, p ∈ sel ∧ p.startsWith "_UNKNOWN" = false)) := by
  have hchar : v ∈ filter_by_people videos (some sel) ↔
      v ∈ videos ∧ ∃ p ∈ sel, p ∈ v.persons := by
    simp [filter_by_people, List.mem_filter, List.any_eq_true]
  refine ⟨rfl, ?_, List.filter_sublist _, hchar, ?_, ?_⟩
  · simp [filter_by_people]
  · intro p hp
    simp only [get_unique_persons, List.mem_mergeSort, List.mem_dedup, List.mem_filter,
      Bool.and_eq_true, bne_iff_ne, ne_eq, Bool.not_eq_true'] at hp
    exact ⟨hp.2.1, hp.2.2⟩
  · intro hsel
    rw [hchar]
    constructor
    · rintro ⟨hv, p, hps, hpv⟩
      exact ⟨hv, p, hpv, hps, hsel p hps⟩
    · rintro ⟨hv, p, hpv, hps, -⟩
      exact ⟨hv, p, hps, hpv⟩

/-- Witness for C6 at a concrete video list and selection. -/
theorem C6_filter_by_people_witness :
    filter_by_people [⟨["Alice"], none⟩] none = [⟨["Alice"], none⟩] ∧
    filter_by_people [⟨["Alice"], none⟩] (some []) = [] ∧
    (filter_by_people [⟨["Alice"], none⟩] (some ["Alice"])).Sublist [⟨["Alice"], none⟩] ∧
    ((⟨["Alice"], none⟩ : Video) ∈ filter_by_people [⟨["Alice"], none⟩] (some ["Alice"]) ↔
      (⟨["Alice"], none⟩ : Video) ∈ [(⟨["Alice"], none⟩ : Video)] ∧
        ∃ p ∈ ["Alice"], p ∈ (⟨["Alice"], none⟩ : Video).persons) ∧
    (∀ p ∈ get_unique_persons [⟨["Alice"], none⟩],
      p ≠ "" ∧ p.startsWith "_UNKNOWN" = false) ∧
    ((⟨["Alice"], none⟩ : Video) ∈ filter_by_people [⟨["Alice"], none⟩] (some ["Alice"]) ↔
      (⟨["Alice"], none⟩ : Video) ∈ [(⟨["Alice"], none⟩ : Video)] ∧
        ∃ p ∈ (⟨["Alice"], none⟩ : Video).persons,
          p ∈ ["Alice"] ∧ p.startsWith "_UNKNOWN" = false) := by
  have h := C6_filter_by_people [⟨["Alice"], none⟩] ["Alice"] ⟨["Alice"], none⟩
  exact ⟨h.1, h.2.1, h.2.2.1, h.2.2.2.1, h.2.2.2.2.1,
    h.2.2.2.2.2 (by intro p hp; fin_cases hp; decide)⟩

/-- Appending on the left preserves strict lexicographic order of char lists. -/
theorem listLtAppendLeft (a : List Char) {c d : List Char} (h : c < d) :
    (a ++ c) < (a ++ d) := by
  induction a with
  | nil => exact h
  | cons x xs ih => exact List.Lex.cons ih

/-- Strict lexicographic order between equal-length char lists is preserved by
appending arbitrary suffixes. -/
theorem listLtAppendCongr : ∀ (a b : List Char), a.length = b.length → a < b →
    ∀ (c d : List Char), (a ++ c) < (b ++ d) := by
  intro a
  induction a with
  | nil =>
    intro b hlen hab
    cases b with
    | nil => cases hab
    | cons y ys => simp at hlen
  | cons x xs ih =>
    intro b hlen hab
    cases b with
    | nil => simp at hlen
    | cons y ys =>
      intro c d
      cases hab with
      | rel h => exact List.Lex.rel h
      | cons h => exact List.Lex.cons (ih ys (by simpa using hlen) h c d)

/-- Digit characters compare like the digits they denote. -/
theorem digitCharLt {a b : ℕ} (hab : a < b) (hb : b ≤ 9) : digitChar a < digitChar b := by
  interval_cases b <;> interval_cases a <;> decide

/-- Zero-padded renderings have exactly the requested width. -/
theorem padDigitsLen (k : ℕ) : ∀ n, (padDigits k n).length = k := by
  induction k with
  | zero => intro n; rfl
  | succ k ih => intro n; simp [padDigits, ih]

/-- Zero-padded decimal rendering is strictly monotone below its capacity:
numeric order agrees with lexicographic order of the digit strings. -/
theorem padDigitsLt : ∀ (k : ℕ) {n m : ℕ}, n < 10 ^ k → m < 10 ^ k → n < m →
    padDigits k n < padDigits k m := by
  intro k
  induction k with
  | zero =>
    intro n m hn hm hnm
    exact absurd hnm (by simp at hn hm; omega)
  | succ k ih =>
    intro n m hn hm hnm
    have hp : 0 < 10 ^ k := Nat.pow_pos (by norm_num)
    simp only [padDigits]
    rcases Nat.lt_trichotomy (n / 10 ^ k) (m / 10 ^ k) with h | h | h
    · apply List.Lex.rel
      apply digitCharLt h
      have hm' : m < 10 * 10 ^ k := by rw [pow_succ] at hm; omega
      have := (Nat.div_lt_iff_lt_mul hp).mpr hm'
      omega
    · rw [h]
      apply List.Lex.cons
      have e1 := Nat.div_add_mod n (10 ^ k)
      have e2 := Nat.div_add_mod m (10 ^ k)
      rw [← h] at e2
      have hmod1 : n % 10 ^ k < 10 ^ k := Nat.mod_lt _ hp
      have hmod2 : m % 10 ^ k < 10 ^ k := Nat.mod_lt _ hp
      exact ih hmod1 hmod2 (by omega)
    · exfalso
      have := Nat.div_le_div_right (c := 10 ^ k) (Nat.le_of_lt hnm)
      omega

/-- Character-list form of the `strftime "%Y.%m.%d"` rendering. -/
theorem strftimeYMD_data (d : PyDate) :
    (strftimeYMD d).data =
      padDigits 4 d.year ++ '.' :: (padDigits 2 d.month ++ '.' :: padDigits 2 d.day) := by
  simp [strftimeYMD, String.data_append, List.append_assoc]

/-- Chronologically earlier valid dates render to lexicographically smaller
date strings, regardless of what follows them. -/
theorem dateCharsLtExt {a b : PyDate} (ha : validDate a) (hb : validDate b)
    (hk : dateKey a < dateKey b) (u v : List Char) :
    (strftimeYMD a).data ++ u < (strftimeYMD b).data ++ v := by
  obtain ⟨-, ha2, -, ha4, -, ha6⟩ := ha
  obtain ⟨-, hb2, -, hb4, -, hb6⟩ := hb
  have hy : a.year < b.year ∨ (a.year = b.year ∧ (a.month < b.month ∨
      (a.month = b.month ∧ a.day < b.day))) := by
    unfold dateKey at hk; omega
  rw [strftimeYMD_data, strftimeYMD_data, List.append_assoc, List.append_assoc]
  rcases hy with h | ⟨hy, h⟩
  · exact listLtAppendCongr _ _ (by rw [padDigitsLen, padDigitsLen])
      (padDigitsLt 4 (lt_of_le_of_lt ha2 (by norm_num)) (lt_of_le_of_lt hb2 (by norm_num)) h) _ _
  · rw [hy]
    apply listLtAppendLeft
    rw [List.cons_append, List.cons_append]
    apply List.Lex.cons
    rw [List.append_assoc, List.append_assoc]
    rcases h with h | ⟨hm, h⟩
    · exact listLtAppendCongr _ _ (by rw [padDigitsLen, padDigitsLen])
        (padDigitsLt 2 (lt_of_le_of_lt ha4 (by norm_num)) (lt_of_le_of_lt hb4 (by norm_num)) h) _ _
    · rw [hm]
      apply listLtAppendLeft
      rw [List.cons_append, List.cons_append]
      apply List.Lex.cons
      exact listLtAppendCongr _ _ (by rw [padDigitsLen, padDigitsLen])
        (padDigitsLt 2 (lt_of_le_of_lt ha6 (by norm_num)) (lt_of_le_of_lt hb6 (by norm_num)) h) _ _

/-- Every generated filename starts with the rendered start date. -/
theorem filename_data (s e : PyDate) (p : Option (List String)) :
    ∃ t, (generate_output_filename s e p).data = (strftimeYMD s).data ++ t := by
  unfold generate_output_filename datePart
  split_ifs with h
  · refine ⟨'.' :: ((peoplePart p).data ++ '.' :: 'm' :: 'p' :: '4' :: []), ?_⟩
    simp [String.data_append, List.append_assoc]
  · refine ⟨('.' :: 't' :: 'o' :: '.' :: (strftimeYMD e).data) ++
      ('.' :: ((peoplePart p).data ++ '.' :: 'm' :: 'p' :: '4' :: [])), ?_⟩
    simp [String.data_append, List.append_assoc]

/-- C9: for valid, chronologically ordered, non-overlapping day-granular date
ranges, the generated filenames sort lexicographically in the same order as the
ranges sort chronologically (pairwise strict order preservation); the people
component is "All" when the selection is null or empty; and the `.to.` range
form is omitted when start and end fall on the same calendar date. -/
theorem C9_filename_order (r1s r1e r2s r2e : PyDate) (p1 p2 : Option (List String))
    (s e : PyDate) (q : Option (List String))
    (h1s : validDate r1s) (_h1e : validDate r1e) (h2s : validDate r2s) (_h2e : validDate r2e)
    (hr1 : dateKey r1s ≤ dateKey r1e) (_hr2 : dateKey r2s ≤ dateKey r2e)
    (hsep : dateKey r1e < dateKey r2s) :
    generate_output_filename r1s r1e p1 < generate_output_filename r2s r2e p2 ∧
    generate_output_filename s e none = datePart s e ++ "." ++ "All" ++ ".mp4" ∧
    generate_output_filename s e (some []) = datePart s e ++ "." ++ "All" ++ ".mp4" ∧
    generate_output_filename s s q = strftimeYMD s ++ "." ++ peoplePart q ++ ".mp4" := by
  refine ⟨?_, rfl, rfl, ?_⟩
  · rw [String.lt_iff_toList_lt]
    obtain ⟨t1, h1⟩ := filename_data r1s r1e p1
    obtain ⟨t2, h2⟩ := filename_data r2s r2e p2
    show (generate_output_filename r1s r1e p1).data <
      (generate_output_filename r2s r2e p2).data
    rw [h1, h2]
    exact dateCharsLtExt h1s h2s (by omega) t1 t2
  · unfold generate_output_filename datePart
    rw [if_pos rfl]

/-- Witness for C9 at two concrete non-overlapping ranges. -/
theorem C9_filename_order_witness :
    generate_output_filename ⟨2020, 1, 5⟩ ⟨2020, 1, 6⟩ (some ["Alice"]) <
      generate_output_filename ⟨2020, 2, 1⟩ ⟨2020, 2, 3⟩ none ∧
    generate_output_filename ⟨2021, 3, 4⟩ ⟨2021, 3, 9⟩ none =
      datePart ⟨2021, 3, 4⟩ ⟨2021, 3, 9⟩ ++ "." ++ "All" ++ ".mp4" ∧
    generate_output_filename ⟨2021, 3, 4⟩ ⟨2021, 3, 9⟩ (some []) =
      datePart ⟨2021, 3, 4⟩ ⟨2021, 3, 9⟩ ++ "." ++ "All" ++ ".mp4" ∧
    generate_output_filename ⟨2021, 3, 4⟩ ⟨2021, 3, 4⟩ (some ["Bob Smith"]) =
      strftimeYMD ⟨2021, 3, 4⟩ ++ "." ++ peoplePart (some ["Bob Smith"]) ++ ".mp4" :=
  C9_filename_order ⟨2020, 1, 5⟩ ⟨2020, 1, 6⟩ ⟨2020, 2, 1⟩ ⟨2020, 2, 3⟩ (some ["Alice"]) none
    ⟨2021, 3, 4⟩ ⟨2021, 3, 9⟩ (some ["Bob Smith"]) (by decide) (by decide) (by decide)
    (by decide) (by decide) (by decide) (by decide)
